import Mathlib

/-!
Verification development for the use-fetch request-state manager.

The JavaScript source (src/useFetch.js, src/utils.js, src/FetchProvider.js)
is shallowly embedded below.  Pure helpers become Lean functions; the React
hook's per-slot behaviour becomes a small-step state machine over an explicit
`Sys` record (reducer state, abort-controller bookkeeping, in-flight request
set, cache, callback logs).  External collaborators (the fetch-dedupe
transport, JSON.stringify, React's dispatch-after-unmount discard) are
modelled explicitly where the code crosses into them.
-/

namespace UseFetch

/-- A fetch Response as the code observes it: an ok flag, a status and the
decoded data payload. -/
structure JSResponse where
  ok : Bool
  status : Nat
  data : String
deriving DecidableEq, Repr

/-- Transport-level failures: an AbortError raised when the request's
AbortController signal fires, or a network error. -/
inductive JSErr where
  | abortError
  | networkError (msg : String)
deriving DecidableEq, Repr

/-- Values stored in the reducer's error field: setError receives either a
non-ok Response (then-branch) or a transport Error (catch-branch). -/
inductive ErrVal where
  | ofResponse (r : JSResponse)
  | ofErr (e : JSErr)
deriving DecidableEq, Repr

/-- A JavaScript value flowing through the promise chain of doFetch. -/
inductive JSVal where
  | vResp (r : JSResponse)
  | vErr (e : JSErr)
deriving DecidableEq, Repr

/-- A settled JavaScript promise: fulfilled or rejected, each carrying a
value. -/
inductive PResult (α : Type) where
  | fulfilled (v : α)
  | rejected (v : α)
deriving DecidableEq, Repr

/-- A request body as passed in fetch init options: undefined, a string, or
a flat object (field/value pairs). -/
inductive JSBody where
  | jsUndefined
  | jsStr (s : String)
  | jsObj (fields : List (String × String))
deriving DecidableEq, Repr

/-- JavaScript truthiness of a body value: undefined and the empty string are
falsy, objects are truthy. -/
def JSBody.truthy : JSBody → Bool
  | .jsUndefined => false
  | .jsStr s => !(s == "")
  | .jsObj _ => true

/-- Models the external JSON.stringify builtin on the body values we track:
undefined stays undefined, strings are quoted, flat objects are rendered as
a JSON object literal. -/
def jsonStringify : JSBody → JSBody
  | .jsUndefined => .jsUndefined
  | .jsStr s => .jsStr ("\x22" ++ s ++ "\x22")
  | .jsObj fs =>
      .jsStr ("\x7b" ++
        String.intercalate ","
          (fs.map (fun p => "\x22" ++ p.1 ++ "\x22:\x22" ++ p.2 ++ "\x22"))
        ++ "\x7d")

/-- The headers value held in fetch init options: absent (undefined/null), a
Headers instance (whose get is case-insensitive), or a plain key/value map. -/
inductive HeadersVal where
  | absent
  | headersInst (entries : List (String × String))
  | plainMap (entries : List (String × String))
deriving DecidableEq, Repr

/-- A thrown JavaScript exception (here only the ReferenceError raised by an
unbound identifier). -/
inductive JSException where
  | referenceError
deriving DecidableEq, Repr

/-- ASCII upper-casing of one character (computable by the kernel). -/
def chUp (c : Char) : Char :=
  if 'a' ≤ c ∧ c ≤ 'z' then Char.ofNat (c.toNat - 32) else c

/-- ASCII lower-casing of one character. -/
def chDown (c : Char) : Char :=
  if 'A' ≤ c ∧ c ≤ 'Z' then Char.ofNat (c.toNat + 32) else c

/-- ASCII upper-casing, modelling String.prototype.toUpperCase as the code
uses it on HTTP method names. -/
def jsToUpper (s : String) : String :=
  ⟨s.data.map chUp⟩

/-- ASCII lower-casing, modelling String.prototype.toLowerCase. -/
def jsToLower (s : String) : String :=
  ⟨s.data.map chDown⟩

/-- getHeader from src/utils.js (the variant whose plain-map branch compares
against the correctly spelt local `keyToFindLowercase`): null headers give
null; a Headers instance is queried case-insensitively; a plain map is
scanned by lower-cased key, and the JS guard `headerKey ? ... : null` drops a
falsy (empty-string) key. -/
def getHeader (headers : HeadersVal) (keyToFind : String) : Option String :=
  match headers with
  | .absent => none
  | .headersInst es =>
      (es.find? (fun p => jsToLower p.1 == jsToLower keyToFind)).map (fun p => p.2)
  | .plainMap es =>
      match es.find? (fun p => jsToLower p.1 == jsToLower keyToFind) with
      | some p => if p.1 == "" then none else some p.2
      | none => none

/-- The fetch init options subset that body shaping inspects. -/
structure FetchOptions where
  headers : HeadersVal
  body : JSBody
deriving DecidableEq, Repr

/-- stringifyIfJSON from src/utils.js (exact-equality variant): serialize the
body with JSON.stringify exactly when the Content-Type header value equals
"application/json"; otherwise pass the body through unchanged. -/
def stringifyIfJSON (fetchOptions : FetchOptions) : JSBody :=
  if getHeader fetchOptions.headers "Content-Type" == some "application/json" then
    jsonStringify fetchOptions.body
  else
    fetchOptions.body

/-- Whether the first character list starts with the second. -/
def startsWithCh : List Char → List Char → Bool
  | _, [] => true
  | [], _ :: _ => false
  | c :: cs, p :: ps => c == p && startsWithCh cs ps

/-- Whether the first character list contains the second contiguously. -/
def hasSubCh : List Char → List Char → Bool
  | [], pat => startsWithCh [] pat
  | c :: cs, pat => startsWithCh (c :: cs) pat || hasSubCh cs pat

/-- Substring test modelling `s.indexOf(pat) !== -1`. -/
def jsIndexOfHit (s pat : String) : Bool :=
  hasSubCh s.data pat.data

/-- getHeader from the other src/utils.js variant.  Its plain-map branch
declares `keyToFindLowercase` but the find callback references the unbound
identifier `keyToFindLowerCase`, so the first callback invocation (any
plain map with at least one key) throws a ReferenceError; an empty plain map
never runs the callback and falls through to null. -/
def getHeaderV1 (headers : HeadersVal) (keyToFind : String) :
    Except JSException (Option String) :=
  match headers with
  | .absent => .ok none
  | .headersInst es =>
      .ok ((es.find? (fun p => jsToLower p.1 == jsToLower keyToFind)).map (fun p => p.2))
  | .plainMap es =>
      match es with
      | [] => .ok none
      | _ :: _ => .error .referenceError

/-- stringifyIfJSON from the same variant: serialize when the Content-Type
value is truthy and contains "application/json" as a substring; propagates
the ReferenceError thrown by its getHeader. -/
def stringifyIfJSONV1 (fetchOptions : FetchOptions) :
    Except JSException JSBody :=
  match getHeaderV1 fetchOptions.headers "Content-Type" with
  | .error e => .error e
  | .ok contentType =>
      match contentType with
      | some ct =>
          if !(ct == "") && jsIndexOfHit ct "application/json" then
            .ok (jsonStringify fetchOptions.body)
          else
            .ok fetchOptions.body
      | none => .ok fetchOptions.body

/-- isReadRequest from src/utils.js: upper-case the method and compare with
GET, HEAD, OPTIONS. -/
def isReadRequest (method : String) : Bool :=
  (jsToUpper method == "GET") || (jsToUpper method == "HEAD") ||
    (jsToUpper method == "OPTIONS")

/-- The three cache policy string constants from useFetch.js. -/
def NETWORK_ONLY : String := "network-only"

/-- cache-and-network policy string constant. -/
def CACHE_AND_NETWORK : String := "cache-and-network"

/-- cache-first policy string constant. -/
def CACHE_FIRST : String := "cache-first"

/-- getDefaultCacheStrategy from useFetch.js: read methods (GET, HEAD,
OPTIONS after upper-casing) default to cache-first, all others to
network-only. -/
def getDefaultCacheStrategy (method : String) : String :=
  if jsToUpper method = "GET" ∨ jsToUpper method = "HEAD" ∨ jsToUpper method = "OPTIONS" then
    CACHE_FIRST
  else NETWORK_ONLY

/-- The per-slot configuration of useFetch (the props the claims exercise;
onError/onSuccess are modelled as invocation logs in the system state and
refreshDoFetch only affects callback-handle memoization). -/
structure UseFetchProps where
  url : String
  method : String
  lazy : Option Bool
  requestKey : Option String
  initHeaders : HeadersVal
  initBody : JSBody
  cachePolicy : Option String
  cacheResponse : Option Bool
deriving DecidableEq, Repr

/-- isLazy from useFetch.js: when lazy is null, read requests are eager and
write requests lazy; an explicit boolean wins. -/
def isLazy (cfg : UseFetchProps) : Bool :=
  match cfg.lazy with
  | none => !isReadRequest cfg.method
  | some b => b

/-- cacheStrategy from useFetch.js: the explicit cachePolicy when non-null,
else the method default. -/
def cacheStrategy (cfg : UseFetchProps) : String :=
  match cfg.cachePolicy with
  | none => getDefaultCacheStrategy cfg.method
  | some p => p

/-- shouldCacheResponse from useFetch.js: an explicit cacheResponse wins,
else responses of read methods are cached. -/
def shouldCacheResponse (cfg : UseFetchProps) : Bool :=
  match cfg.cacheResponse with
  | none => isReadRequest cfg.method
  | some b => b

/-- The body representation fetch-dedupe folds into the request key. -/
def bodyRepr : JSBody → String
  | .jsUndefined => ""
  | .jsStr s => s
  | .jsObj fs => String.intercalate "," (fs.map (fun p => p.1 ++ ":" ++ p.2))

/-- Models the external fetch-dedupe getRequestKey: a deterministic string
built from url, upper-cased method and body representation. -/
def getRequestKey (url method body : String) : String :=
  String.intercalate "||" [url, method, body]

/-- finalRequestKey from useFetch.js: a truthy explicit requestKey is used
verbatim (the JS conditional drops an empty string), else the key is derived
from url, upper-cased method and init. -/
def finalRequestKey (cfg : UseFetchProps) : String :=
  let derived := getRequestKey cfg.url (jsToUpper cfg.method) (bodyRepr cfg.initBody)
  match cfg.requestKey with
  | some k => if k == "" then derived else k
  | none => derived

/-- The body actually handed to fetch-dedupe at line 151 of useFetch.js:
`finalInit.body ? stringifyIfJSON(finalInit) : undefined`. -/
def shapeBody (cfg : UseFetchProps) : JSBody :=
  if (cfg.initBody).truthy then
    stringifyIfJSON { headers := cfg.initHeaders, body := cfg.initBody }
  else
    .jsUndefined

/-- The reducer state of useFetch.js: response, fetching flag, error. -/
structure ReducerState where
  response : Option JSResponse
  fetching : Bool
  error : Option ErrVal
deriving DecidableEq, Repr

/-- Reducer actions: in-flight, response (with a fetching payload), error. -/
inductive Action where
  | inFlight
  | responseA (response : JSResponse) (fetching : Bool)
  | errorA (error : ErrVal)
deriving DecidableEq, Repr

/-- The reducer from useFetch.js.  in-flight returns the state unchanged when
already fetching (to avoid a redundant re-render) and otherwise sets
fetching; response clears the error and stores response and fetching payload;
error clears fetching and stores the error. -/
def reducer (state : ReducerState) (action : Action) : ReducerState :=
  match action with
  | .inFlight =>
      if state.fetching then state
      else { state with fetching := true }
  | .responseA r f => { state with error := none, fetching := f, response := some r }
  | .errorA e => { state with fetching := false, error := some e }

/-- The full per-slot system state: mount flag, reducer state,
abortControllerRef (the id of the currently held controller), the set of
aborted controller ids, a fresh-id counter, the in-flight physical requests
of this slot (by controller id), a count of physical transport calls, the
bodies transmitted, the shared response cache, and logs of the onError /
onSuccess hook invocations (most recent first). -/
structure Sys where
  mounted : Bool
  st : ReducerState
  abortRef : Option Nat
  abortedCtrls : List Nat
  nextCtrl : Nat
  pending : List Nat
  fetchCalls : Nat
  sentBodies : List JSBody
  cache : List (String × JSResponse)
  onErrorLog : List ErrVal
  onSuccessLog : List JSResponse
deriving DecidableEq, Repr

/-- Cache lookup (responseCache.get): first binding for the key. -/
def cacheGet (c : List (String × JSResponse)) (k : String) : Option JSResponse :=
  (c.find? (fun p => p.1 == k)).map (fun p => p.2)

/-- React dispatch: applies the reducer while the component is mounted; a
dispatch against an unmounted component is discarded by React and mutates no
observable state. -/
def dispatch (s : Sys) (a : Action) : Sys :=
  if s.mounted then { s with st := reducer s.st a } else s

/-- Record an onError hook invocation. -/
def logErr (s : Sys) (e : ErrVal) : Sys :=
  { s with onErrorLog := e :: s.onErrorLog }

/-- Record an onSuccess hook invocation. -/
def logSucc (s : Sys) (r : JSResponse) : Sys :=
  { s with onSuccessLog := r :: s.onSuccessLog }

/-- cancelRunningRequest from useFetch.js: abort the currently held
controller, if any. -/
def cancelRunningRequest (s : Sys) : Sys :=
  match s.abortRef with
  | some c => { s with abortedCtrls := c :: s.abortedCtrls }
  | none => s

/-- The synchronous prefix of doFetch: cancel any running request, allocate a
fresh AbortController into the ref, dispatch in-flight, then issue the
physical transport call (recorded as a new pending request carrying the fresh
controller, an incremented call count, and the shaped body of line 151). -/
def doFetchStart (cfg : UseFetchProps) (s : Sys) : Sys :=
  let s1 := cancelRunningRequest s
  let c := s1.nextCtrl
  let s2 := { s1 with abortRef := some c, nextCtrl := c + 1 }
  let s3 := dispatch s2 .inFlight
  { s3 with
      pending := c :: s3.pending,
      fetchCalls := s3.fetchCalls + 1,
      sentBodies := shapeBody cfg :: s3.sentBodies }

/-- Promise.then with a fulfillment handler (handlers here do not throw):
transforms a fulfilled value, passes a rejection through. -/
def promThen (f : Sys → JSVal → Sys × JSVal) :
    Sys × PResult JSVal → Sys × PResult JSVal
  | (s, .fulfilled v) => let p := f s v; (p.1, .fulfilled p.2)
  | (s, .rejected v) => (s, .rejected v)

/-- Promise.catch: transforms a rejection into a fulfillment with the
handler's return value, passes a fulfillment through. -/
def promCatch (f : Sys → JSVal → Sys × JSVal) :
    Sys × PResult JSVal → Sys × PResult JSVal
  | (s, .fulfilled v) => (s, .fulfilled v)
  | (s, .rejected v) => let p := f s v; (p.1, .fulfilled p.2)

/-- Promise.finally: runs the cleanup for its side effect and passes the
settlement through unchanged. -/
def promFinally (fin : Sys → Sys) :
    Sys × PResult JSVal → Sys × PResult JSVal
  | (s, r) => (fin s, r)

/-- The error value setError receives for a given caught value. -/
def errValOfJSVal : JSVal → ErrVal
  | .vResp r => .ofResponse r
  | .vErr e => .ofErr e

/-- The .then handler of doFetch: a non-ok response goes to setError and
onError; an ok response is written to the cache when shouldCacheResponse
holds, then setResponse and onSuccess run.  Either way the handler returns
the response.  (A non-Response fulfillment value has a falsy .ok in JS and
takes the error branch.) -/
def thenHandler (cfg : UseFetchProps) (s : Sys) (v : JSVal) : Sys × JSVal :=
  match v with
  | .vResp r =>
      if !r.ok then
        (logErr (dispatch s (.errorA (.ofResponse r))) (.ofResponse r), .vResp r)
      else
        let s1 :=
          { s with cache :=
              if shouldCacheResponse cfg then (finalRequestKey cfg, r) :: s.cache
              else s.cache }
        (logSucc (dispatch s1 (.responseA r false)) r, .vResp r)
  | .vErr e =>
      (logErr (dispatch s (.errorA (.ofErr e))) (.ofErr e), .vErr e)

/-- The .catch handler of doFetch: setError with the caught value, onError
with it, and return it (fulfilling the chain). -/
def catchHandler (s : Sys) (v : JSVal) : Sys × JSVal :=
  (logErr (dispatch s (.errorA (errValOfJSVal v))) (errValOfJSVal v), v)

/-- The doFetch promise chain
`fetchDedupe(...).then(...).catch(...).finally(...)` applied to the
settlement of the physical transport promise; the finally clears
abortControllerRef unconditionally. -/
def settleChain (cfg : UseFetchProps) (s : Sys) (init : PResult JSVal) :
    Sys × PResult JSVal :=
  promFinally (fun s => { s with abortRef := none })
    (promCatch catchHandler (promThen (thenHandler cfg) (s, init)))

/-- The natural settlement of the physical transport call: a response (ok or
not) or a network failure. -/
inductive NatOutcome where
  | resolved (r : JSResponse)
  | netFail (msg : String)
deriving DecidableEq, Repr

/-- Settlement of an in-flight request: if the request's controller was
aborted the transport promise rejects with an AbortError (cooperative
cancellation), else it settles with its natural outcome; the chain's handlers
then run. -/
def settleStep (cfg : UseFetchProps) (s : Sys) (c : Nat) (nat : NatOutcome) : Sys :=
  if c ∈ s.pending then
    let s1 := { s with pending := s.pending.erase c }
    let init : PResult JSVal :=
      if c ∈ s1.abortedCtrls then .rejected (.vErr .abortError)
      else
        match nat with
        | .resolved r => .fulfilled (.vResp r)
        | .netFail m => .rejected (.vErr (.networkError m))
    (settleChain cfg s1 init).1
  else s

/-- The auto-fire effect body of useFetch.js (runs on mount and on request
key / laziness changes): in lazy mode do nothing; on a cache-first hit,
onSuccess and setResponse with the cached value and return without fetching;
on a cache-and-network hit, onSuccess and setResponse (still fetching) and
fall through; in every non-returning case call doFetch. -/
def autoFireEffect (cfg : UseFetchProps) (s : Sys) : Sys :=
  if isLazy cfg then s
  else
    match cacheGet s.cache (finalRequestKey cfg) with
    | some r =>
        if cacheStrategy cfg = CACHE_FIRST then
          dispatch (logSucc s r) (.responseA r false)
        else if cacheStrategy cfg = CACHE_AND_NETWORK then
          doFetchStart cfg (dispatch (logSucc s r) (.responseA r true))
        else
          doFetchStart cfg s
    | none => doFetchStart cfg s

/-- Events of the per-slot trace semantics: the auto-fire effect running, a
manual doFetch call, the settlement of the physical request with controller
c, and unmount (whose cleanup cancels any running request). -/
inductive Event where
  | evEffect
  | evDoFetch
  | evSettle (c : Nat) (nat : NatOutcome)
  | evUnmount
deriving DecidableEq, Repr

/-- One step of the slot machine.  Effects only run while mounted; a stale
doFetch closure stays callable; the unmount cleanup cancels the held
controller and tears the slot down. -/
def step (cfg : UseFetchProps) (s : Sys) : Event → Sys
  | .evEffect => if s.mounted then autoFireEffect cfg s else s
  | .evDoFetch => doFetchStart cfg s
  | .evSettle c nat => settleStep cfg s c nat
  | .evUnmount =>
      if s.mounted then { cancelRunningRequest s with mounted := false } else s

/-- The state of a freshly rendered slot: mounted, reducer initialised with
fetching = not lazy, no controller, no pending request, a given initial
shared cache, empty logs. -/
def initSys (cfg : UseFetchProps) (cache0 : List (String × JSResponse)) : Sys :=
  { mounted := true
    st := { response := none, fetching := !isLazy cfg, error := none }
    abortRef := none
    abortedCtrls := []
    nextCtrl := 0
    pending := []
    fetchCalls := 0
    sentBodies := []
    cache := cache0
    onErrorLog := []
    onSuccessLog := [] }

/-- Run a trace of events from the initial state. -/
def run (cfg : UseFetchProps) (cache0 : List (String × JSResponse))
    (es : List Event) : Sys :=
  es.foldl (step cfg) (initSys cfg cache0)

/-- A 200 response used as a concrete fixture. -/
def okResp : JSResponse := { ok := true, status := 200, data := "ok" }

/-- A second, distinct ok response (a network refresh). -/
def okResp2 : JSResponse := { ok := true, status := 200, data := "fresh" }

/-- A 500 response: structurally valid but not ok. -/
def errResp : JSResponse := { ok := false, status := 500, data := "boom" }

/-- A lazy POST slot configuration (manual-only). -/
def postCfg : UseFetchProps :=
  { url := "/posts", method := "POST", lazy := some true, requestKey := none,
    initHeaders := .absent, initBody := .jsUndefined, cachePolicy := none,
    cacheResponse := none }

/-- A default GET slot configuration. -/
def getCfg : UseFetchProps :=
  { url := "/posts", method := "GET", lazy := none, requestKey := none,
    initHeaders := .absent, initBody := .jsUndefined, cachePolicy := none,
    cacheResponse := none }

/-- The GET slot with an explicit cache-and-network policy. -/
def canCfg : UseFetchProps := { getCfg with cachePolicy := some CACHE_AND_NETWORK }

/-- A POST slot with lazy unset (lazy by the read/write default). -/
def postDefCfg : UseFetchProps := { postCfg with lazy := none }

/-- A cache holding an entry for the GET slot's request key. -/
def cacheA : List (String × JSResponse) := [(finalRequestKey getCfg, okResp)]

/-- A clean mounted slot. -/
def sysIdle : Sys := initSys postCfg []

/-- A mounted slot holding controller 5 with request 5 in flight. -/
def sysHeld : Sys :=
  { sysIdle with abortRef := some 5, nextCtrl := 6, pending := [5], fetchCalls := 1 }

/-- A mounted slot whose in-flight request 5 has been aborted. -/
def sysAborted : Sys :=
  { sysIdle with abortedCtrls := [5], nextCtrl := 6, pending := [5], fetchCalls := 1 }

/-- A torn-down slot whose aborted request 5 has not yet settled. -/
def sysDown : Sys := { sysAborted with mounted := false }

/-- A mounted slot with request 0 in flight and not aborted. -/
def sysLive : Sys :=
  { sysIdle with pending := [0], nextCtrl := 1, abortRef := some 0, fetchCalls := 1 }

theorem dispatch_mounted (s : Sys) (a : Action) : (dispatch s a).mounted = s.mounted := by
  unfold dispatch; split <;> rfl

theorem dispatch_abortRef (s : Sys) (a : Action) : (dispatch s a).abortRef = s.abortRef := by
  unfold dispatch; split <;> rfl

theorem dispatch_abortedCtrls (s : Sys) (a : Action) :
    (dispatch s a).abortedCtrls = s.abortedCtrls := by
  unfold dispatch; split <;> rfl

theorem dispatch_nextCtrl (s : Sys) (a : Action) : (dispatch s a).nextCtrl = s.nextCtrl := by
  unfold dispatch; split <;> rfl

theorem dispatch_pending (s : Sys) (a : Action) : (dispatch s a).pending = s.pending := by
  unfold dispatch; split <;> rfl

theorem dispatch_fetchCalls (s : Sys) (a : Action) :
    (dispatch s a).fetchCalls = s.fetchCalls := by
  unfold dispatch; split <;> rfl

theorem dispatch_sentBodies (s : Sys) (a : Action) :
    (dispatch s a).sentBodies = s.sentBodies := by
  unfold dispatch; split <;> rfl

theorem dispatch_cache (s : Sys) (a : Action) : (dispatch s a).cache = s.cache := by
  unfold dispatch; split <;> rfl

theorem dispatch_onErrorLog (s : Sys) (a : Action) :
    (dispatch s a).onErrorLog = s.onErrorLog := by
  unfold dispatch; split <;> rfl

theorem dispatch_onSuccessLog (s : Sys) (a : Action) :
    (dispatch s a).onSuccessLog = s.onSuccessLog := by
  unfold dispatch; split <;> rfl

theorem dispatch_st (s : Sys) (a : Action) :
    (dispatch s a).st = if s.mounted then reducer s.st a else s.st := by
  unfold dispatch; split <;> simp_all

theorem cancel_mounted (s : Sys) : (cancelRunningRequest s).mounted = s.mounted := by
  unfold cancelRunningRequest; cases s.abortRef <;> rfl

theorem cancel_st (s : Sys) : (cancelRunningRequest s).st = s.st := by
  unfold cancelRunningRequest; cases s.abortRef <;> rfl

theorem cancel_abortRef (s : Sys) : (cancelRunningRequest s).abortRef = s.abortRef := by
  unfold cancelRunningRequest; cases h : s.abortRef <;> simp [h]

theorem cancel_nextCtrl (s : Sys) : (cancelRunningRequest s).nextCtrl = s.nextCtrl := by
  unfold cancelRunningRequest; cases s.abortRef <;> rfl

theorem cancel_pending (s : Sys) : (cancelRunningRequest s).pending = s.pending := by
  unfold cancelRunningRequest; cases s.abortRef <;> rfl

theorem cancel_fetchCalls (s : Sys) : (cancelRunningRequest s).fetchCalls = s.fetchCalls := by
  unfold cancelRunningRequest; cases s.abortRef <;> rfl

theorem cancel_sentBodies (s : Sys) : (cancelRunningRequest s).sentBodies = s.sentBodies := by
  unfold cancelRunningRequest; cases s.abortRef <;> rfl

theorem cancel_cache (s : Sys) : (cancelRunningRequest s).cache = s.cache := by
  unfold cancelRunningRequest; cases s.abortRef <;> rfl

theorem cancel_onErrorLog (s : Sys) : (cancelRunningRequest s).onErrorLog = s.onErrorLog := by
  unfold cancelRunningRequest; cases s.abortRef <;> rfl

theorem cancel_onSuccessLog (s : Sys) :
    (cancelRunningRequest s).onSuccessLog = s.onSuccessLog := by
  unfold cancelRunningRequest; cases s.abortRef <;> rfl

theorem cancel_held (s : Sys) (c : Nat) (h : s.abortRef = some c) :
    (cancelRunningRequest s).abortedCtrls = c :: s.abortedCtrls := by
  unfold cancelRunningRequest; rw [h]

theorem cancel_empty (s : Sys) (h : s.abortRef = none) : cancelRunningRequest s = s := by
  unfold cancelRunningRequest; rw [h]

theorem doFetchStart_fetchCalls (cfg : UseFetchProps) (s : Sys) :
    (doFetchStart cfg s).fetchCalls = s.fetchCalls + 1 := by
  unfold doFetchStart
  simp [dispatch_fetchCalls, cancel_fetchCalls]

theorem doFetchStart_abortRef (cfg : UseFetchProps) (s : Sys) :
    (doFetchStart cfg s).abortRef = some s.nextCtrl := by
  unfold doFetchStart
  simp [dispatch_abortRef, cancel_nextCtrl]

theorem doFetchStart_nextCtrl (cfg : UseFetchProps) (s : Sys) :
    (doFetchStart cfg s).nextCtrl = s.nextCtrl + 1 := by
  unfold doFetchStart
  simp [dispatch_nextCtrl, cancel_nextCtrl]

theorem doFetchStart_pending (cfg : UseFetchProps) (s : Sys) :
    (doFetchStart cfg s).pending = s.nextCtrl :: s.pending := by
  unfold doFetchStart
  simp [dispatch_pending, cancel_pending, cancel_nextCtrl]

theorem doFetchStart_mounted (cfg : UseFetchProps) (s : Sys) :
    (doFetchStart cfg s).mounted = s.mounted := by
  unfold doFetchStart
  simp [dispatch_mounted, cancel_mounted]

theorem doFetchStart_cache (cfg : UseFetchProps) (s : Sys) :
    (doFetchStart cfg s).cache = s.cache := by
  unfold doFetchStart
  simp [dispatch_cache, cancel_cache]

theorem doFetchStart_onErrorLog (cfg : UseFetchProps) (s : Sys) :
    (doFetchStart cfg s).onErrorLog = s.onErrorLog := by
  unfold doFetchStart
  simp [dispatch_onErrorLog, cancel_onErrorLog]

theorem doFetchStart_onSuccessLog (cfg : UseFetchProps) (s : Sys) :
    (doFetchStart cfg s).onSuccessLog = s.onSuccessLog := by
  unfold doFetchStart
  simp [dispatch_onSuccessLog, cancel_onSuccessLog]

theorem doFetchStart_abortedCtrls (cfg : UseFetchProps) (s : Sys) (c : Nat)
    (h : s.abortRef = some c) :
    (doFetchStart cfg s).abortedCtrls = c :: s.abortedCtrls := by
  unfold doFetchStart
  simp [dispatch_abortedCtrls, cancel_held s c h]

theorem doFetchStart_st (cfg : UseFetchProps) (s : Sys) :
    (doFetchStart cfg s).st = if s.mounted then reducer s.st .inFlight else s.st := by
  unfold doFetchStart
  simp [dispatch_st, cancel_st, cancel_mounted]

theorem settleChain_rejected (cfg : UseFetchProps) (s : Sys) (e : JSErr) :
    (settleChain cfg s (.rejected (.vErr e))).1 =
      { logErr (dispatch s (.errorA (.ofErr e))) (.ofErr e) with abortRef := none } := rfl

theorem settleChain_bad_resp (cfg : UseFetchProps) (s : Sys) (r : JSResponse)
    (h : r.ok = false) :
    (settleChain cfg s (.fulfilled (.vResp r))).1 =
      { logErr (dispatch s (.errorA (.ofResponse r))) (.ofResponse r) with
          abortRef := none } := by
  simp [settleChain, promThen, promCatch, promFinally, thenHandler, h]

theorem settleChain_ok_resp (cfg : UseFetchProps) (s : Sys) (r : JSResponse)
    (h : r.ok = true) :
    (settleChain cfg s (.fulfilled (.vResp r))).1 =
      { logSucc (dispatch
          { s with cache :=
              if shouldCacheResponse cfg then (finalRequestKey cfg, r) :: s.cache
              else s.cache }
          (.responseA r false)) r with abortRef := none } := by
  simp [settleChain, promThen, promCatch, promFinally, thenHandler, h]

/-- C4: with no explicit cachePolicy, the resolved policy is cache-first
exactly when the upper-cased method is GET, HEAD or OPTIONS, and network-only
for every other method; an explicit cachePolicy value is used verbatim
regardless of method. -/
theorem C4_policy_resolution (cfg : UseFetchProps) (p : String) :
    (cfg.cachePolicy = none →
      ((cacheStrategy cfg = CACHE_FIRST ↔
          (jsToUpper cfg.method = "GET" ∨ jsToUpper cfg.method = "HEAD" ∨
            jsToUpper cfg.method = "OPTIONS")) ∧
        (¬(jsToUpper cfg.method = "GET" ∨ jsToUpper cfg.method = "HEAD" ∨
            jsToUpper cfg.method = "OPTIONS") →
          cacheStrategy cfg = NETWORK_ONLY))) ∧
    (cfg.cachePolicy = some p → cacheStrategy cfg = p) := by
  constructor
  · intro h
    simp only [cacheStrategy, h, getDefaultCacheStrategy]
    split
    · rename_i hc
      exact ⟨⟨fun _ => hc, fun _ => rfl⟩, fun hn => absurd hc hn⟩
    · rename_i hc
      exact ⟨⟨fun he => absurd he (by decide), fun hcc => absurd hcc hc⟩, fun _ => rfl⟩
  · intro h
    simp [cacheStrategy, h]

/-- Witness for C4 at a default GET slot and at a slot with an explicit
cache-and-network policy. -/
theorem C4_policy_resolution_witness :
    getCfg.cachePolicy = none ∧
    (jsToUpper getCfg.method = "GET" ∨ jsToUpper getCfg.method = "HEAD" ∨
      jsToUpper getCfg.method = "OPTIONS") ∧
    cacheStrategy getCfg = CACHE_FIRST ∧
    canCfg.cachePolicy = some CACHE_AND_NETWORK ∧
    cacheStrategy canCfg = CACHE_AND_NETWORK := by
  refine ⟨rfl, by decide, ?_, rfl, ?_⟩
  · exact ((C4_policy_resolution getCfg "x").1 rfl).1.mpr (by decide)
  · exact (C4_policy_resolution canCfg CACHE_AND_NETWORK).2 rfl

/-- C6: a physical request that resolves with a structurally valid non-ok
response drives the slot to the error state carrying that response (the
error field holds the response, fetching clears, the response field is
untouched), onError is invoked exactly once with that response, the cache is
not written, and onSuccess is not invoked. -/
theorem C6_non_ok_response (cfg : UseFetchProps) (s : Sys) (c : Nat) (r : JSResponse)
    (h1 : c ∈ s.pending) (h2 : c ∉ s.abortedCtrls) (h3 : r.ok = false)
    (h4 : s.mounted = true) :
    (settleStep cfg s c (.resolved r)).st.error = some (.ofResponse r) ∧
    (settleStep cfg s c (.resolved r)).st.fetching = false ∧
    (settleStep cfg s c (.resolved r)).st.response = s.st.response ∧
    (settleStep cfg s c (.resolved r)).onErrorLog = .ofResponse r :: s.onErrorLog ∧
    (settleStep cfg s c (.resolved r)).onSuccessLog = s.onSuccessLog ∧
    (settleStep cfg s c (.resolved r)).cache = s.cache := by
  simp [settleStep, settleChain, promThen, promCatch, promFinally, thenHandler,
    logErr, dispatch, reducer, h1, h2, h3, h4]

/-- Witness for C6: request 0 of a live slot settles with a 500 response. -/
theorem C6_non_ok_response_witness :
    0 ∈ sysLive.pending ∧ 0 ∉ sysLive.abortedCtrls ∧ errResp.ok = false ∧
    sysLive.mounted = true ∧
    (settleStep getCfg sysLive 0 (.resolved errResp)).st.error =
      some (.ofResponse errResp) ∧
    (settleStep getCfg sysLive 0 (.resolved errResp)).onErrorLog =
      [.ofResponse errResp] ∧
    (settleStep getCfg sysLive 0 (.resolved errResp)).onSuccessLog = [] ∧
    (settleStep getCfg sysLive 0 (.resolved errResp)).cache = [] := by
  have h := C6_non_ok_response getCfg sysLive 0 errResp (by decide) (by decide) rfl rfl
  exact ⟨by decide, by decide, rfl, rfl, h.1, h.2.2.2.1, h.2.2.2.2.1, h.2.2.2.2.2⟩

/-- C9: an ok response is written back to the cache under the slot's request
key exactly when shouldCacheResponse holds, and shouldCacheResponse is the
explicit cacheResponse override when given and the read-method default
otherwise. -/
theorem C9_cache_write_policy (cfg : UseFetchProps) (s : Sys) (c : Nat)
    (r : JSResponse) (b : Bool)
    (h1 : c ∈ s.pending) (h2 : c ∉ s.abortedCtrls) (h3 : r.ok = true) :
    (settleStep cfg s c (.resolved r)).cache =
      (if shouldCacheResponse cfg then (finalRequestKey cfg, r) :: s.cache
        else s.cache) ∧
    (cfg.cacheResponse = some b → shouldCacheResponse cfg = b) ∧
    (cfg.cacheResponse = none → shouldCacheResponse cfg = isReadRequest cfg.method) ∧
    (shouldCacheResponse cfg = true ↔
      (cfg.cacheResponse = some true ∨
        (cfg.cacheResponse = none ∧ isReadRequest cfg.method = true))) := by
  refine ⟨?_, fun h => by simp [shouldCacheResponse, h], fun h => by
    simp [shouldCacheResponse, h], ?_⟩
  · simp [settleStep, settleChain, promThen, promCatch, promFinally, thenHandler,
      logSucc, dispatch, h1, h2, h3]
    split <;> rfl
  · cases hcr : cfg.cacheResponse with
    | none => simp [shouldCacheResponse, hcr]
    | some bb => cases bb <;> simp [shouldCacheResponse, hcr]

/-- Witness for C9: an ok settlement on a default GET slot writes the cache
entry; the defaults resolve as the read-method rule. -/
theorem C9_cache_write_policy_witness :
    0 ∈ sysLive.pending ∧ 0 ∉ sysLive.abortedCtrls ∧ okResp.ok = true ∧
    (settleStep getCfg sysLive 0 (.resolved okResp)).cache =
      [(finalRequestKey getCfg, okResp)] ∧
    shouldCacheResponse getCfg = isReadRequest getCfg.method := by
  have h := C9_cache_write_policy getCfg sysLive 0 okResp true (by decide) (by decide) rfl
  refine ⟨by decide, by decide, rfl, ?_, h.2.2.1 rfl⟩
  rw [h.1]
  decide

/-- C10: the promise returned by doFetch never rejects: the chain fulfills
with the Response whenever the transport promise resolves (ok or not), and
fulfills with the caught Error value whenever the transport promise rejects. -/
theorem C10_doFetch_promise_fulfills (cfg : UseFetchProps) (s : Sys)
    (r : JSResponse) (e : JSErr) :
    (settleChain cfg s (.fulfilled (.vResp r))).2 = .fulfilled (.vResp r) ∧
    (settleChain cfg s (.rejected (.vErr e))).2 = .fulfilled (.vErr e) := by
  constructor
  · cases hok : r.ok <;>
      simp [settleChain, promThen, promCatch, promFinally, thenHandler, hok]
  · rfl

/-- C8: evaluation of the variant of getHeader/stringifyIfJSON whose find
callback references the unbound identifier keyToFindLowerCase: a non-empty
plain header map throws a ReferenceError instead of matching
case-insensitively, while the missing and empty collections return null, and
the correctly-spelt variant serializes the body as the claim states. -/
theorem C8_header_lookup_typo :
    stringifyIfJSONV1
      { headers := .plainMap [("content-type", "application/json")],
        body := .jsObj [("title", "foo")] } = .error .referenceError ∧
    getHeaderV1 (.plainMap [("content-type", "application/json")]) "Content-Type" =
      .error .referenceError ∧
    getHeaderV1 .absent "Content-Type" = .ok none ∧
    getHeaderV1 (.plainMap []) "Content-Type" = .ok none ∧
    getHeader (.plainMap [("content-type", "application/json")]) "Content-Type" =
      some "application/json" ∧
    stringifyIfJSON
      { headers := .plainMap [("content-type", "application/json")],
        body := .jsObj [("title", "foo")] } =
      jsonStringify (.jsObj [("title", "foo")]) ∧
    stringifyIfJSON { headers := .absent, body := .jsObj [("title", "foo")] } =
      .jsObj [("title", "foo")] :=
  ⟨rfl, rfl, rfl, rfl, by decide, by decide, by decide⟩

theorem settleChain_st_unmounted (cfg : UseFetchProps) (s : Sys) (init : PResult JSVal)
    (h : s.mounted = false) :
    (settleChain cfg s init).1.st = s.st := by
  cases init with
  | fulfilled v =>
      cases v with
      | vResp r =>
          cases hok : r.ok <;>
            simp [settleChain, promThen, promCatch, promFinally, thenHandler, logErr,
              logSucc, dispatch, hok, h]
      | vErr e =>
          simp [settleChain, promThen, promCatch, promFinally, thenHandler, logErr,
            dispatch, h]
  | rejected v =>
      simp [settleChain, promThen, promCatch, promFinally, catchHandler, errValOfJSVal,
        logErr, dispatch, h]

theorem settleStep_st_unmounted (cfg : UseFetchProps) (s : Sys) (c : Nat)
    (nat : NatOutcome) (h : s.mounted = false) :
    (settleStep cfg s c nat).st = s.st := by
  unfold settleStep
  split
  · exact settleChain_st_unmounted cfg _ _ h
  · rfl

/-- C1 (amended): invoking doFetch while a request of the slot is in flight
aborts the held controller before allocating a fresh one for the new
request; however the aborted first request still settles through the catch
handler, so its abort-error outcome IS applied to the slot's state (error
set, fetching cleared) and reported to onError after the second request has
started. -/
theorem C1_supersede_abort (cfg : UseFetchProps) (s : Sys) (c : Nat)
    (nat : NatOutcome) :
    (s.abortRef = some c →
       (doFetchStart cfg s).abortedCtrls = c :: s.abortedCtrls ∧
       (doFetchStart cfg s).abortRef = some s.nextCtrl) ∧
    (c ∈ s.abortedCtrls → c ∈ s.pending → s.mounted = true →
       (settleStep cfg s c nat).st.error = some (.ofErr .abortError) ∧
       (settleStep cfg s c nat).st.fetching = false ∧
       (settleStep cfg s c nat).onErrorLog = .ofErr .abortError :: s.onErrorLog) := by
  constructor
  · intro h
    exact ⟨doFetchStart_abortedCtrls cfg s c h, doFetchStart_abortRef cfg s⟩
  · intro h1 h2 h3
    simp [settleStep, settleChain, promThen, promCatch, promFinally, catchHandler,
      errValOfJSVal, logErr, dispatch, reducer, h1, h2, h3]

/-- Witness for C1 (amended): controller 5 is held and gets aborted by a new
doFetch; the aborted request's settlement sets the error state and logs
onError. -/
theorem C1_supersede_abort_witness :
    sysHeld.abortRef = some 5 ∧
    (doFetchStart postCfg sysHeld).abortedCtrls = [5] ∧
    (doFetchStart postCfg sysHeld).abortRef = some 6 ∧
    5 ∈ sysAborted.abortedCtrls ∧ 5 ∈ sysAborted.pending ∧ sysAborted.mounted = true ∧
    (settleStep postCfg sysAborted 5 (.resolved okResp)).st.error =
      some (.ofErr .abortError) ∧
    (settleStep postCfg sysAborted 5 (.resolved okResp)).onErrorLog =
      [.ofErr .abortError] := by
  have ha := C1_supersede_abort postCfg sysHeld 5 (.resolved okResp)
  have hb := C1_supersede_abort postCfg sysAborted 5 (.resolved okResp)
  exact ⟨rfl, (ha.1 rfl).1, (ha.1 rfl).2, by decide, by decide, rfl,
    (hb.2 (by decide) (by decide) rfl).1, (hb.2 (by decide) (by decide) rfl).2.2⟩

/-- C1 counterexample: with two doFetch calls in a row, settling the first
(superseded, aborted) request changes the slot's state after the second has
started — its abort-error outcome is applied and onError is invoked, so the
claim that no outcome of the first request is ever applied after the second
starts is false on the code. -/
theorem C1_counterexample :
    (run postCfg [] [.evDoFetch, .evDoFetch, .evSettle 0 (.resolved okResp)]).st ≠
      (run postCfg [] [.evDoFetch, .evDoFetch]).st ∧
    (run postCfg [] [.evDoFetch, .evDoFetch, .evSettle 0 (.resolved okResp)]).st.error =
      some (.ofErr .abortError) ∧
    0 ∈ (run postCfg [] [.evDoFetch, .evDoFetch]).abortedCtrls ∧
    (run postCfg [] [.evDoFetch, .evDoFetch, .evSettle 0 (.resolved okResp)]).pending =
      [1] ∧
    (run postCfg [] [.evDoFetch, .evDoFetch, .evSettle 0 (.resolved okResp)]).onErrorLog =
      [.ofErr .abortError] := by decide

/-- C7 (amended): unmounting cancels any still-held controller, and a
settlement arriving after teardown mutates no slot state; however the catch
handler still runs, so onError IS invoked with the abort error even though
the slot is gone. -/
theorem C7_teardown (cfg : UseFetchProps) (s : Sys) (c : Nat) (nat : NatOutcome) :
    (s.mounted = true → s.abortRef = some c →
       (step cfg s .evUnmount).abortedCtrls = c :: s.abortedCtrls ∧
       (step cfg s .evUnmount).mounted = false) ∧
    (s.mounted = false → (settleStep cfg s c nat).st = s.st) ∧
    (s.mounted = false → c ∈ s.abortedCtrls → c ∈ s.pending →
       (settleStep cfg s c nat).onErrorLog = .ofErr .abortError :: s.onErrorLog) := by
  refine ⟨fun hm hr => ?_, fun hm => settleStep_st_unmounted cfg s c nat hm,
    fun hm h1 h2 => ?_⟩
  · constructor
    · simp [step, hm, cancel_held s c hr]
    · simp [step, hm]
  · simp [settleStep, settleChain, promThen, promCatch, promFinally, catchHandler,
      errValOfJSVal, logErr, dispatch, hm, h1, h2]

/-- Witness for C7 (amended): unmounting the slot holding controller 5
aborts it; the settlement on the torn-down slot leaves the state untouched
but logs the onError invocation. -/
theorem C7_teardown_witness :
    sysHeld.mounted = true ∧ sysHeld.abortRef = some 5 ∧
    (step postCfg sysHeld .evUnmount).abortedCtrls = [5] ∧
    (step postCfg sysHeld .evUnmount).mounted = false ∧
    sysDown.mounted = false ∧ 5 ∈ sysDown.abortedCtrls ∧ 5 ∈ sysDown.pending ∧
    (settleStep postCfg sysDown 5 (.resolved okResp)).st = sysDown.st ∧
    (settleStep postCfg sysDown 5 (.resolved okResp)).onErrorLog =
      [.ofErr .abortError] := by
  have ha := C7_teardown postCfg sysHeld 5 (.resolved okResp)
  have hb := C7_teardown postCfg sysDown 5 (.resolved okResp)
  exact ⟨rfl, rfl, (ha.1 rfl rfl).1, (ha.1 rfl rfl).2, rfl, by decide, by decide,
    hb.2.1 rfl, hb.2.2 rfl (by decide) (by decide)⟩

/-- C7 counterexample: a request started, then unmount, then the abort
settles — the torn-down slot's onError hook is nevertheless invoked with the
abort error, refuting the claim's "no onError invocation" part (the state
itself stays unchanged). -/
theorem C7_counterexample :
    (run postCfg [] [.evDoFetch, .evUnmount, .evSettle 0 (.resolved okResp)]).onErrorLog =
      [.ofErr .abortError] ∧
    (run postCfg [] [.evDoFetch, .evUnmount, .evSettle 0 (.resolved okResp)]).st =
      (run postCfg [] [.evDoFetch, .evUnmount]).st ∧
    (run postCfg [] [.evDoFetch, .evUnmount]).mounted = false ∧
    0 ∈ (run postCfg [] [.evDoFetch, .evUnmount]).abortedCtrls := by decide

/-- C2: a non-lazy trigger on a slot whose resolved policy is cache-first
and whose request key has a cache entry performs zero physical transport
calls and settles to the success state carrying exactly the cached response,
with onSuccess invoked on it. -/
theorem C2_cache_first_hit (cfg : UseFetchProps) (cache0 : List (String × JSResponse))
    (r : JSResponse)
    (h1 : isLazy cfg = false)
    (h2 : cacheStrategy cfg = CACHE_FIRST)
    (h3 : cacheGet cache0 (finalRequestKey cfg) = some r) :
    (run cfg cache0 [.evEffect]).fetchCalls = 0 ∧
    (run cfg cache0 [.evEffect]).pending = [] ∧
    (run cfg cache0 [.evEffect]).st.response = some r ∧
    (run cfg cache0 [.evEffect]).st.fetching = false ∧
    (run cfg cache0 [.evEffect]).st.error = none ∧
    (run cfg cache0 [.evEffect]).onSuccessLog = [r] := by
  simp [run, step, initSys, autoFireEffect, dispatch, logSucc, reducer, h1, h2, h3]

/-- Witness for C2 at the default GET slot with a warm cache. -/
theorem C2_cache_first_hit_witness :
    isLazy getCfg = false ∧ cacheStrategy getCfg = CACHE_FIRST ∧
    cacheGet cacheA (finalRequestKey getCfg) = some okResp ∧
    (run getCfg cacheA [.evEffect]).fetchCalls = 0 ∧
    (run getCfg cacheA [.evEffect]).st.response = some okResp ∧
    (run getCfg cacheA [.evEffect]).st.fetching = false ∧
    (run getCfg cacheA [.evEffect]).onSuccessLog = [okResp] := by
  have h := C2_cache_first_hit getCfg cacheA okResp (by decide) (by decide) (by decide)
  exact ⟨by decide, by decide, by decide, h.1, h.2.2.1, h.2.2.2.1, h.2.2.2.2.2⟩

/-- C3: a non-lazy trigger under cache-and-network with a warm cache
surfaces the cached response immediately as a success state while the slot
stays pending, performs exactly one physical request, and that request's
outcome overwrites the slot state when it resolves. -/
theorem C3_cache_and_network (cfg : UseFetchProps) (cache0 : List (String × JSResponse))
    (r r2 : JSResponse)
    (h1 : isLazy cfg = false)
    (h2 : cacheStrategy cfg = CACHE_AND_NETWORK)
    (h3 : cacheGet cache0 (finalRequestKey cfg) = some r)
    (h4 : r2.ok = true) :
    (run cfg cache0 [.evEffect]).st.response = some r ∧
    (run cfg cache0 [.evEffect]).st.fetching = true ∧
    (run cfg cache0 [.evEffect]).st.error = none ∧
    (run cfg cache0 [.evEffect]).fetchCalls = 1 ∧
    (run cfg cache0 [.evEffect]).pending = [0] ∧
    (run cfg cache0 [.evEffect]).onSuccessLog = [r] ∧
    (run cfg cache0 [.evEffect, .evSettle 0 (.resolved r2)]).st.response = some r2 ∧
    (run cfg cache0 [.evEffect, .evSettle 0 (.resolved r2)]).st.fetching = false ∧
    (run cfg cache0 [.evEffect, .evSettle 0 (.resolved r2)]).st.error = none ∧
    (run cfg cache0 [.evEffect, .evSettle 0 (.resolved r2)]).fetchCalls = 1 := by
  have hne : ¬(CACHE_AND_NETWORK = CACHE_FIRST) := by decide
  simp [run, step, initSys, autoFireEffect, doFetchStart, cancelRunningRequest,
    dispatch, logSucc, logErr, reducer, settleStep, settleChain, promThen, promCatch,
    promFinally, thenHandler, h1, h2, h3, h4, hne]

/-- Witness for C3 at the GET slot with an explicit cache-and-network policy
and a warm cache. -/
theorem C3_cache_and_network_witness :
    isLazy canCfg = false ∧ cacheStrategy canCfg = CACHE_AND_NETWORK ∧
    cacheGet cacheA (finalRequestKey canCfg) = some okResp ∧ okResp2.ok = true ∧
    (run canCfg cacheA [.evEffect]).st.response = some okResp ∧
    (run canCfg cacheA [.evEffect]).st.fetching = true ∧
    (run canCfg cacheA [.evEffect]).fetchCalls = 1 ∧
    (run canCfg cacheA [.evEffect, .evSettle 0 (.resolved okResp2)]).st.response =
      some okResp2 ∧
    (run canCfg cacheA [.evEffect, .evSettle 0 (.resolved okResp2)]).st.fetching =
      false := by
  have h := C3_cache_and_network canCfg cacheA okResp okResp2 (by decide) (by decide)
    (by decide) rfl
  obtain ⟨a1, a2, a3, a4, a5, a6, b1, b2, b3, b4⟩ := h
  exact ⟨by decide, by decide, by decide, rfl, a1, a2, a4, b1, b2⟩

/-- C5: a lazy=true slot never auto-fires (the effect is a no-op), and more
generally every slot whose resolved laziness is true — including a lazy=null
slot with a write method — never auto-fires; an explicit lazy value is used
as given while a null lazy falls back to the read-method rule; whenever the
slot is non-lazy the effect does fire (it either issues a physical call or
serves a cache-first hit); and the manual doFetch trigger performs its
physical call independently of the lazy setting. -/
theorem C5_lazy_gating (cfg : UseFetchProps) (s : Sys) (b1 b2 : Option Bool) :
    (cfg.lazy = some true → autoFireEffect cfg s = s) ∧
    (isLazy cfg = true → autoFireEffect cfg s = s) ∧
    (∀ bb : Bool, cfg.lazy = some bb → isLazy cfg = bb) ∧
    (cfg.lazy = none → isLazy cfg = !isReadRequest cfg.method) ∧
    (isLazy cfg = false →
       (autoFireEffect cfg s).fetchCalls = s.fetchCalls + 1 ∨
       (cacheStrategy cfg = CACHE_FIRST ∧
         ∃ r, cacheGet s.cache (finalRequestKey cfg) = some r ∧
           (autoFireEffect cfg s).onSuccessLog = r :: s.onSuccessLog)) ∧
    (doFetchStart cfg s).fetchCalls = s.fetchCalls + 1 ∧
    doFetchStart { cfg with lazy := b1 } s = doFetchStart { cfg with lazy := b2 } s := by
  refine ⟨fun h => ?_, fun h => ?_, fun bb h => ?_, fun h => ?_, fun h => ?_,
    doFetchStart_fetchCalls cfg s, rfl⟩
  · simp [autoFireEffect, isLazy, h]
  · simp [autoFireEffect, h]
  · simp [isLazy, h]
  · simp [isLazy, h]
  · unfold autoFireEffect
    rw [h]
    rw [if_neg (by simp)]
    cases hcg : cacheGet s.cache (finalRequestKey cfg) with
    | none => exact Or.inl (doFetchStart_fetchCalls cfg s)
    | some r =>
        by_cases hcf : cacheStrategy cfg = CACHE_FIRST
        · refine Or.inr ⟨hcf, r, rfl, ?_⟩
          simp [hcf, dispatch_onSuccessLog, logSucc]
        · refine Or.inl ?_
          show (if cacheStrategy cfg = CACHE_FIRST then
              dispatch (logSucc s r) (Action.responseA r false)
            else if cacheStrategy cfg = CACHE_AND_NETWORK then
              doFetchStart cfg (dispatch (logSucc s r) (Action.responseA r true))
            else doFetchStart cfg s).fetchCalls = s.fetchCalls + 1
          rw [if_neg hcf]
          split
          · simp [doFetchStart_fetchCalls, dispatch_fetchCalls, logSucc]
          · exact doFetchStart_fetchCalls cfg s

/-- Witness for C5 at a lazy=true POST slot, a lazy-unset POST slot (lazy by
the write-method default, so it never auto-fires) and the default GET slot. -/
theorem C5_lazy_gating_witness :
    postCfg.lazy = some true ∧
    autoFireEffect postCfg sysIdle = sysIdle ∧
    isLazy postCfg = true ∧
    postDefCfg.lazy = none ∧ isLazy postDefCfg = true ∧
    autoFireEffect postDefCfg sysIdle = sysIdle ∧
    getCfg.lazy = none ∧ isLazy getCfg = !isReadRequest getCfg.method ∧
    isLazy getCfg = false ∧
    ((autoFireEffect getCfg sysIdle).fetchCalls = sysIdle.fetchCalls + 1 ∨
      (cacheStrategy getCfg = CACHE_FIRST ∧
        ∃ r, cacheGet sysIdle.cache (finalRequestKey getCfg) = some r ∧
          (autoFireEffect getCfg sysIdle).onSuccessLog = r :: sysIdle.onSuccessLog)) ∧
    (doFetchStart getCfg sysIdle).fetchCalls = sysIdle.fetchCalls + 1 ∧
    doFetchStart { getCfg with lazy := some true } sysIdle =
      doFetchStart { getCfg with lazy := some false } sysIdle := by
  have ha := C5_lazy_gating postCfg sysIdle (some true) (some false)
  have hb := C5_lazy_gating getCfg sysIdle (some true) (some false)
  have hc := C5_lazy_gating postDefCfg sysIdle (some true) (some false)
  exact ⟨rfl, ha.1 rfl, ha.2.2.1 true rfl, rfl, by decide, hc.2.1 (by decide),
    rfl, hb.2.2.2.1 rfl, by decide, hb.2.2.2.2.1 (by decide),
    hb.2.2.2.2.2.1, hb.2.2.2.2.2.2⟩

end UseFetch
